import Mathlib

/-!
Shallow embedding of the perf-review-tool repository
(`src/parse_csv.py` and `src/validate_review.py`) in Lean 4, together with
theorems settling the specification claims.  Python strings are modelled as
Lean `String`, Python lists as `List`, ordered dicts as association lists,
integers as `Int`/`Nat`, and float division (the average score) as `ℚ`.
-/

namespace PerfReview

/-- The single-quote character `'` (code point 39), used to reproduce
Python f-strings such as `"Response must mention role: '…'"` verbatim. -/
def sq : String := String.mk [Char.ofNat 39]

/-- `startsList p s` holds when `p` is a prefix of the character list `s`. -/
def startsList : List Char → List Char → Bool
  | [], _ => true
  | _ :: _, [] => false
  | a :: p, b :: s => a == b && startsList p s

/-- `hasSub n s`: the character list `n` occurs contiguously inside `s`. -/
def hasSub (n : List Char) : List Char → Bool
  | [] => startsList n []
  | c :: rest => startsList n (c :: rest) || hasSub n rest

/-- Python's substring test `needle in hay`. -/
def pyContains (hay needle : String) : Bool :=
  hasSub needle.data hay.data

/-- Lower-case a string (`str.lower()`), character by character. -/
def pyLower (s : String) : String := String.mk (s.data.map Char.toLower)

/-- Upper-case a string (`str.upper()`), character by character. -/
def pyUpper (s : String) : String := String.mk (s.data.map Char.toUpper)

/-- `str.strip()`: drop leading and trailing whitespace. -/
def trimChars (cs : List Char) : List Char :=
  (((cs.dropWhile Char.isWhitespace).reverse).dropWhile Char.isWhitespace).reverse

/-- `str.strip()` on strings. -/
def pyStrip (s : String) : String := String.mk (trimChars s.data)

/-- `s.startswith(p)`. -/
def pyStarts (s p : String) : Bool := startsList p.data s.data

/-- Whitespace-run splitting: the words of a character list, in order. -/
def wordsChars : List Char → List Char → List (List Char)
  | [], acc => if acc.isEmpty then [] else [acc.reverse]
  | c :: rest, acc =>
    if c.isWhitespace then
      if acc.isEmpty then wordsChars rest [] else acc.reverse :: wordsChars rest []
    else wordsChars rest (c :: acc)

/-- Python's `str.split()` with no argument: split on whitespace runs,
dropping empty pieces. -/
def pySplitWs (s : String) : List String :=
  (wordsChars s.data []).map String.mk

/-- `len(response.split())` — the word count used by the validator. -/
def wordCount (s : String) : Nat := (pySplitWs s).length

/-- `str.split(sep)` for a non-empty separator: scan left to right,
splitting at each non-overlapping occurrence.  `fuel` bounds the
recursion (any value `≥ cs.length` gives the full scan). -/
def splitOnAux (sep : List Char) : Nat → List Char → List Char →
    List (List Char)
  | 0, cs, acc => [acc.reverse ++ cs]
  | _ + 1, [], acc => [acc.reverse]
  | fuel + 1, c :: rest, acc =>
    if startsList sep (c :: rest) then
      acc.reverse :: splitOnAux sep fuel ((c :: rest).drop sep.length) []
    else
      splitOnAux sep fuel rest (c :: acc)

/-- `str.split(sep)` on strings (with a non-empty separator). -/
def pySplitOn (s sep : String) : List String :=
  (splitOnAux sep.data s.data.length s.data []).map String.mk

/-- Python truthiness test `not response or not response.strip()`. -/
def pyBlank (s : String) : Bool := s == "" || pyStrip s == ""

/-! ### Validator message strings (`src/validate_review.py`) -/

def tooShortMsg (wc : Nat) : String :=
  "Response too short (" ++ toString wc ++ " words). Need at least 60 words."

def shortMsg (wc : Nat) : String :=
  "Response is short (" ++ toString wc ++ " words). Aim for 80-150 words."

def longMsg (wc : Nat) : String :=
  "Response is long (" ++ toString wc ++ " words). Consider condensing to under 180 words."

def roleMsg (role : String) : String :=
  "Response must mention role: " ++ sq ++ role ++ sq

def teamMsg (team : String) : String :=
  "Response must mention team: " ++ sq ++ team ++ sq

def openingMsg : String :=
  "Response should start with " ++ sq ++ "As an [ROLE] in the [TEAM] Team..." ++ sq

def noMetricsMsg : String :=
  "No metrics found. Include specific numbers to strengthen the response."

def fewMetricsMsg : String :=
  "Consider adding more specific metrics for stronger impact."

def genericMsg (phrase suggestion : String) : String :=
  "Generic phrase detected: " ++ sq ++ phrase ++ sq ++ ". " ++ suggestion ++ "."

def noTechMsg : String :=
  "No specific technologies mentioned. Reference actual tools/frameworks used."

def varyMsg : String := "Vary sentence lengths for better readability."

def repeatMsg : String := "Avoid starting multiple sentences with the same word."

def noDigitMsg : String := "Include specific numbers or metrics to demonstrate impact."

def passiveMsg : String :=
  "Use active voice for stronger impact (e.g., " ++ sq ++ "I implemented" ++ sq
    ++ " vs " ++ sq ++ "was implemented" ++ sq ++ ")."

/-! ### `ReviewValidator` state (`__init__`, lines 16–21) -/

/-- The fields `ReviewValidator.__init__` extracts from the parsed data:
`metrics_texts`, `technologies`, `role`, `team`. -/
structure VData where
  metrics_texts : List String
  technologies : List String
  role : String
  team : String
deriving DecidableEq

/-- Check 1 (length validation, lines 32–42): returns
(errors, warnings, penalty). -/
def lengthCheck (response : String) : List String × List String × Int :=
  let wc := wordCount response
  if wc < 40 then ([tooShortMsg wc], [], 20)
  else if wc < 60 then ([], [shortMsg wc], 5)
  else if wc > 200 then ([], [longMsg wc], 5)
  else ([], [], 0)

/-- Check 2 (role mention, lines 45–47): returns (errors, penalty). -/
def roleCheck (v : VData) (response : String) : List String × Int :=
  if v.role != "UNKNOWN" && !(pyContains response v.role) then
    ([roleMsg v.role], 15)
  else ([], 0)

/-- Check 2b (team mention, lines 49–51): returns (errors, penalty). -/
def teamCheck (v : VData) (response : String) : List String × Int :=
  if v.team != "" && !(pyContains response v.team) then
    ([teamMsg v.team], 15)
  else ([], 0)

/-- Check 3 (opening phrase, lines 54–57): returns (warnings, penalty). -/
def openingCheck (response : String) : List String × Int :=
  if !(pyStarts response "As an") && !(pyStarts response "As a") then
    ([openingMsg], 10)
  else ([], 0)

/-- The metric-heavy section names (lines 60–65). -/
def metric_sections : List String :=
  ["Engineering/Operation Excellence", "Tech Initiatives", "Impact",
   "Ambiguity & Problem Complexity"]

/-- `sum(1 for m in self.metrics_texts if m in response)` (line 68). -/
def metricsFound (v : VData) (response : String) : Nat :=
  (v.metrics_texts.filter (fun m => pyContains response m)).length

/-- Check 4 (metrics validation, lines 67–74): returns (warnings, penalty). -/
def metricsCheck (v : VData) (sectionName response : String) : List String × Int :=
  if metric_sections.contains sectionName && !v.metrics_texts.isEmpty then
    let k := metricsFound v response
    if k == 0 then ([noMetricsMsg], 10)
    else if k < 2 then ([fewMetricsMsg], 5)
    else ([], 0)
  else ([], 0)

/-- The fixed generic-phrase dictionary (lines 77–86), in source order. -/
def generic_phrases : List (String × String) :=
  [("various projects", "Be specific about which projects"),
   ("multiple times", "Specify how many times or give examples"),
   ("several initiatives", "Name the initiatives"),
   ("numerous improvements", "Quantify the improvements"),
   ("enhanced quality", "Specify how quality was enhanced"),
   ("improved performance", "Use specific metrics"),
   ("increased efficiency", "Quantify the efficiency gain"),
   ("better experience", "Describe what improved")]

/-- The generic phrases found in the response (line 89 condition). -/
def genericHits (response : String) : List (String × String) :=
  generic_phrases.filter (fun pr => pyContains (pyLower response) (pyLower pr.1))

/-- Check 5 (generic-phrase detection, lines 88–91): one warning and a
penalty of 3 per phrase found. -/
def genericCheck (response : String) : List String × Int :=
  ((genericHits response).map (fun pr => genericMsg pr.1 pr.2),
   3 * (genericHits response).length)

/-- The technology-relevant section names (line 94). -/
def tech_sections : List String :=
  ["Tech Initiatives", "Engineering/Operation Excellence", "Roadmap Delivery"]

/-- Check 6 (technology mentions, lines 95–99): returns (warnings, penalty). -/
def techCheck (v : VData) (sectionName response : String) : List String × Int :=
  if tech_sections.contains sectionName && !v.technologies.isEmpty then
    if (v.technologies.filter (fun t => pyContains response t)).length == 0 then
      ([noTechMsg], 8)
    else ([], 0)
  else ([], 0)

/-- `response.split('. ')` (line 102). -/
def sentencesOf (response : String) : List String := pySplitOn response ". "

/-- Check 7 (sentence-length variety, lines 102–107). -/
def varietyCheck (response : String) : List String × Int :=
  let sentences := sentencesOf response
  if sentences.length ≥ 3 then
    let sentenceLengths :=
      (sentences.filter (fun s => pyStrip s ≠ "")).map (fun s => (pySplitWs s).length)
    if sentenceLengths.eraseDups.length < 2 then ([varyMsg], 3) else ([], 0)
  else ([], 0)

/-- `sentence_starts` (line 110): first word of each non-blank sentence. -/
def sentenceStarts (response : String) : List String :=
  ((sentencesOf response).filter
      (fun s => pyStrip s ≠ "" && (pySplitWs (pyStrip s)).length > 0)).map
    (fun s => (pySplitWs (pyStrip s)).headD "")

/-- Check 8 (repeated sentence openers, lines 110–114). -/
def repeatCheck (response : String) : List String × Int :=
  let starts := sentenceStarts response
  if starts.length > 2 then
    if starts.length ≠ starts.eraseDups.length then ([repeatMsg], 5) else ([], 0)
  else ([], 0)

/-- Check 9 (data-driven language, lines 117–120). -/
def digitCheck (sectionName response : String) : List String × Int :=
  let hasData := response.data.any Char.isDigit
  if !hasData && metric_sections.contains sectionName then ([noDigitMsg], 10)
  else ([], 0)

/-- The fixed passive-voice indicator list (line 123). -/
def passive_indicators : List String :=
  ["was implemented", "were created", "was developed", "were completed"]

/-- Check 10 (active-voice check, lines 123–127). -/
def passiveCheck (response : String) : List String × Int :=
  let passiveCount :=
    (passive_indicators.filter
      (fun ind => pyContains (pyLower response) (pyLower ind))).length
  if passiveCount > 2 then ([passiveMsg], 5) else ([], 0)

/-- `ReviewValidator.validate_section` (lines 23–129): returns
`(errors, warnings, quality_score)`.  The source appends messages and
subtracts penalties check by check; here the per-check results are
assembled in the same order and the score is
`max 0 (100 - Σ penalties)`, which agrees with the sequential
`quality_score -= p` updates followed by `max(0, quality_score)`. -/
def validate_section (v : VData) (sectionName response : String) :
    List String × List String × Int :=
  ((lengthCheck response).1 ++ (roleCheck v response).1 ++ (teamCheck v response).1,
   (lengthCheck response).2.1 ++ (openingCheck response).1
     ++ (metricsCheck v sectionName response).1 ++ (genericCheck response).1
     ++ (techCheck v sectionName response).1 ++ (varietyCheck response).1
     ++ (repeatCheck response).1 ++ (digitCheck sectionName response).1
     ++ (passiveCheck response).1,
   max 0 (100 -
     ((lengthCheck response).2.2 + (roleCheck v response).2 + (teamCheck v response).2
       + (openingCheck response).2 + (metricsCheck v sectionName response).2
       + (genericCheck response).2 + (techCheck v sectionName response).2
       + (varietyCheck response).2 + (repeatCheck response).2
       + (digitCheck sectionName response).2 + (passiveCheck response).2)))

/-- The total penalty subtracted from the starting score of 100 in
`validate_section`. -/
def totalPenalty (v : VData) (sectionName response : String) : Int :=
  (lengthCheck response).2.2 + (roleCheck v response).2 + (teamCheck v response).2
    + (openingCheck response).2 + (metricsCheck v sectionName response).2
    + (genericCheck response).2 + (techCheck v sectionName response).2
    + (varietyCheck response).2 + (repeatCheck response).2
    + (digitCheck sectionName response).2 + (passiveCheck response).2

/-- Per-section status classification (line 151). -/
def sectionStatus (score : Int) : String :=
  if score ≥ 90 then "EXCELLENT"
  else if score ≥ 75 then "GOOD"
  else if score ≥ 60 then "NEEDS_WORK"
  else "POOR"

/-- Overall status classification on the (unrounded) average score
(line 175). -/
def overallStatus (avg : ℚ) : String :=
  if avg ≥ 90 then "EXCELLENT"
  else if avg ≥ 75 then "GOOD"
  else "NEEDS_IMPROVEMENT"

/-- Per-section validation result, as stored in `results[section_name]`
(lines 141–146 and 153–159).  The empty-response branch stores no
`word_count` key, modelled by `none`. -/
structure SectionResult where
  errors : List String
  warnings : List String
  score : Int
  status : String
  word_count : Option Nat
deriving DecidableEq

/-- The result recorded for one section inside `validate_full_review`:
the empty-response short-circuit (lines 140–147) or the full check battery
(lines 149–159). -/
def sectionResult (v : VData) (sectionName response : String) : SectionResult :=
  if pyBlank response then
    { errors := ["Section is empty"], warnings := [], score := 0,
      status := "ERROR", word_count := none }
  else
    let r := validate_section v sectionName response
    { errors := r.1, warnings := r.2.1, score := r.2.2,
      status := sectionStatus r.2.2, word_count := some (wordCount response) }

/-- Floor of a rational as an integer (computable, kernel-reducible). -/
def ratFloor (q : ℚ) : ℤ := Int.fdiv q.num q.den

/-- Round half-to-even at one decimal place over `ℚ`, modelling Python's
`round(avg_score, 1)` (line 171; the binary-float representation error of
`round` is not modelled — all values exercised here are exact). -/
def pyRound1 (q : ℚ) : ℚ :=
  let x := 10 * q
  let f : ℤ := ratFloor x
  let r := x - (f : ℚ)
  (if r < 1/2 then (f : ℚ) else if r > 1/2 then (f : ℚ) + 1
   else if f % 2 = 0 then (f : ℚ) else (f : ℚ) + 1) / 10

/-- Summary block of `validate_full_review` (lines 168–177). -/
structure ReportSummary where
  average_score : ℚ
  total_errors : Nat
  total_warnings : Nat
  sections_validated : Nat
  overall_status : String
deriving DecidableEq

/-- The full validation report (lines 168–177). -/
structure Report where
  sections : List (String × SectionResult)
  summary : ReportSummary
deriving DecidableEq

/-- The loop of `validate_full_review` (lines 139–164): per-section
results in input order together with the running totals
`(total_score, total_sections, len(all_errors), len(all_warnings))`.
Sections with a blank response are recorded but contribute to none of
the totals (the `continue` on line 147). -/
def vfrAux (v : VData) : List (String × String) →
    List (String × SectionResult) × Int × Nat × Nat × Nat
  | [] => ([], 0, 0, 0, 0)
  | (name, response) :: rest =>
    let acc := vfrAux v rest
    let r := sectionResult v name response
    if pyBlank response then
      ((name, r) :: acc.1, acc.2.1, acc.2.2.1, acc.2.2.2.1, acc.2.2.2.2)
    else
      ((name, r) :: acc.1, r.score + acc.2.1, acc.2.2.1 + 1,
       r.errors.length + acc.2.2.2.1, r.warnings.length + acc.2.2.2.2)

/-- `avg_score` (line 166): `total_score / total_sections` when at least
one section was validated, else `0`. -/
def avgScore (totalScore : Int) (totalSections : Nat) : ℚ :=
  if totalSections > 0 then (totalScore : ℚ) / (totalSections : ℚ) else 0

/-- `ReviewValidator.validate_full_review` (lines 131–177). -/
def validate_full_review (v : VData) (responses : List (String × String)) :
    Report :=
  let acc := vfrAux v responses
  let avg := avgScore acc.2.1 acc.2.2.1
  { sections := acc.1,
    summary :=
      { average_score := pyRound1 avg,
        total_errors := acc.2.2.2.1,
        total_warnings := acc.2.2.2.2,
        sections_validated := acc.2.2.1,
        overall_status := overallStatus avg } }

/-! ### Regex building blocks for `src/parse_csv.py`

Each Python regex in the source is hand-translated into an anchored
matcher `List Char → Option (List Char × List String)` returning the
consumed characters (`match.group(0)`) and the captured groups
(`match.groups()`).  Greedy quantifiers whose continuation cannot start
with a character of the quantified class are translated as maximal spans
(equivalent to the backtracking semantics for these patterns);
alternations are translated as first-alternative-that-lets-the-rest-match,
exactly as a backtracking engine treats `a|b`. -/

/-- Strip a literal (case-insensitively), returning the consumed input
characters with their original case and the rest. -/
def stripCI : List Char → List Char → Option (List Char × List Char)
  | [], cs => some ([], cs)
  | _ :: _, [] => none
  | p :: ps, c :: cs =>
    if p.toLower == c.toLower then
      match stripCI ps cs with
      | some (m, r) => some (c :: m, r)
      | none => none
    else none

/-- `\d+`: a nonempty maximal digit span. -/
def spanDigits (cs : List Char) : Option (List Char × List Char) :=
  let p := cs.span Char.isDigit
  if p.1.isEmpty then none else some p

/-- `\s+`: a nonempty maximal whitespace span. -/
def wsPlus (cs : List Char) : Option (List Char × List Char) :=
  let p := cs.span Char.isWhitespace
  if p.1.isEmpty then none else some p

/-- A single literal character. -/
def lit (c : Char) : List Char → Option (List Char × List Char)
  | x :: r => if x == c then some ([x], r) else none
  | [] => none

/-- An optional literal character (`c?`). -/
def optLit (c : Char) : List Char → List Char × List Char
  | x :: r => if x == c then ([x], r) else ([], x :: r)
  | [] => ([], [])

/-- Backtracking alternation: try each alternative in order
(case-insensitively); the first one under which the continuation `k`
succeeds wins.  `k` receives the consumed alternative text and the rest,
and returns the remaining consumed characters and captured groups. -/
def firstAlt (alts : List String) (cs : List Char)
    (k : List Char → List Char → Option (List Char × List String)) :
    Option (List Char × List String) :=
  match alts with
  | [] => none
  | a :: rest =>
    match stripCI a.data cs with
    | some (m, r) =>
      match k m r with
      | some res => some (m ++ res.1, res.2)
      | none => firstAlt rest cs k
    | none => firstAlt rest cs k

/-- `\d+\.?\d*`: a number with optional decimal part. -/
def matchNum (cs : List Char) : Option (List Char × List Char) := do
  let (d1, r1) ← spanDigits cs
  match r1 with
  | '.' :: r2 =>
    let (d2, r3) := r2.span Char.isDigit
    some (d1 ++ '.' :: d2, r3)
  | _ => some (d1, r1)

def unitAlts : List String := ["s", "ms", "hr", "hrs", "hours", "minutes", "mins"]

def nounAlts : List String :=
  ["events", "dependencies", "items", "files", "repositories", "repos"]

def multAlts : List String := ["faster", "slower", "more", "less"]

/-- Pattern 1 (line 101): `(\d+\.?\d*)\s*%\s+to\s+(\d+\.?\d*)\s*%`. -/
def matchPctRange (cs : List Char) : Option (List Char × List String) := do
  let (n1, r1) ← matchNum cs
  let (ws1, r2) := r1.span Char.isWhitespace
  let (pc1, r3) ← lit '%' r2
  let (ws2, r4) ← wsPlus r3
  let (t1, r5) ← stripCI "to".data r4
  let (ws3, r6) ← wsPlus r5
  let (n2, r7) ← matchNum r6
  let (ws4, r8) := r7.span Char.isWhitespace
  let (pc2, _) ← lit '%' r8
  some (n1 ++ ws1 ++ pc1 ++ ws2 ++ t1 ++ ws3 ++ n2 ++ ws4 ++ pc2,
        [String.mk n1, String.mk n2])

/-- Pattern 2 (line 103):
`(\d+)\s*(s|ms|hr|hrs|hours|minutes|mins)\s+to\s+(\d+)\s*(s|…|mins)`. -/
def matchDurRange (cs : List Char) : Option (List Char × List String) := do
  let (d1, r1) ← spanDigits cs
  let (ws1, r2) := r1.span Char.isWhitespace
  let (rest, gs) ← firstAlt unitAlts r2 (fun u1 r3 => do
    let (ws2, r4) ← wsPlus r3
    let (t1, r5) ← stripCI "to".data r4
    let (ws3, r6) ← wsPlus r5
    let (d2, r7) ← spanDigits r6
    let (ws4, r8) := r7.span Char.isWhitespace
    let (tail, gs2) ← firstAlt unitAlts r8 (fun u2 _ => some ([], [String.mk u2]))
    some (ws2 ++ t1 ++ ws3 ++ d2 ++ ws4 ++ tail,
          [String.mk u1, String.mk d2] ++ gs2))
  some (d1 ++ ws1 ++ rest, String.mk d1 :: gs)

/-- Pattern 3 (line 105): `Rs\s+(\d+)\s+to\s+Rs\s+(\d+)`. -/
def matchRsRange (cs : List Char) : Option (List Char × List String) := do
  let (rs1, r1) ← stripCI "Rs".data cs
  let (ws1, r2) ← wsPlus r1
  let (d1, r3) ← spanDigits r2
  let (ws2, r4) ← wsPlus r3
  let (t1, r5) ← stripCI "to".data r4
  let (ws3, r6) ← wsPlus r5
  let (rs2, r7) ← stripCI "Rs".data r6
  let (ws4, r8) ← wsPlus r7
  let (d2, _) ← spanDigits r8
  some (rs1 ++ ws1 ++ d1 ++ ws2 ++ t1 ++ ws3 ++ rs2 ++ ws4 ++ d2,
        [String.mk d1, String.mk d2])

/-- `\d+\.\d+\.\d+`: a three-component version number. -/
def matchVer (cs : List Char) : Option (List Char × List Char) := do
  let (a, r1) ← spanDigits cs
  let (dot1, r2) ← lit '.' r1
  let (b, r3) ← spanDigits r2
  let (dot2, r4) ← lit '.' r3
  let (c, r5) ← spanDigits r4
  some (a ++ dot1 ++ b ++ dot2 ++ c, r5)

/-- Pattern 4 (line 107): `(\d+\.\d+\.\d+)\s+to\s+(\d+\.\d+\.\d+)`. -/
def matchVerRange (cs : List Char) : Option (List Char × List String) := do
  let (v1, r1) ← matchVer cs
  let (ws1, r2) ← wsPlus r1
  let (t1, r3) ← stripCI "to".data r2
  let (ws2, r4) ← wsPlus r3
  let (v2, _) ← matchVer r4
  some (v1 ++ ws1 ++ t1 ++ ws2 ++ v2, [String.mk v1, String.mk v2])

/-- Pattern 5 (line 109): `(\d+)\+?\s+(events|dependencies|items|files|repositories|repos)`. -/
def matchCount (cs : List Char) : Option (List Char × List String) := do
  let (d1, r1) ← spanDigits cs
  let (plus1, r2) := optLit '+' r1
  let (ws1, r3) ← wsPlus r2
  let (rest, gs) ← firstAlt nounAlts r3 (fun n _ => some ([], [String.mk n]))
  some (d1 ++ plus1 ++ ws1 ++ rest, String.mk d1 :: gs)

/-- The two mojibake characters that the source file literally contains in
pattern 6 (the UTF-8 bytes of `×` double-decoded): U+221A and U+00F3. -/
def multSep : List Char := [Char.ofNat 0x221A, Char.ofNat 0xF3]

/-- Pattern 6 (line 111): `~?(\d+)√ó\s+(faster|slower|more|less)` — the
separator is the literal two-character sequence present in the source. -/
def matchMult (cs : List Char) : Option (List Char × List String) := do
  let (t1, r1) := optLit '~' cs
  let (d1, r2) ← spanDigits r1
  let (m1, r3) ← stripCI multSep r2
  let (ws1, r4) ← wsPlus r3
  let (rest, gs) ← firstAlt multAlts r4 (fun w _ => some ([], [String.mk w]))
  some (t1 ++ d1 ++ m1 ++ ws1 ++ rest, String.mk d1 :: gs)

/-- Pattern 7 (line 113): `~?(\d+\.?\d*)\s*%`. -/
def matchPct (cs : List Char) : Option (List Char × List String) := do
  let (t1, r1) := optLit '~' cs
  let (n1, r2) ← matchNum r1
  let (ws1, r3) := r2.span Char.isWhitespace
  let (pc, _) ← lit '%' r3
  some (t1 ++ n1 ++ ws1 ++ pc, [String.mk n1])

/-- Pattern 8 (line 115): `(?:by|reduced)\s+(\d+)\s*%`. -/
def matchReduction (cs : List Char) : Option (List Char × List String) :=
  firstAlt ["by", "reduced"] cs (fun _ r1 => do
    let (ws1, r2) ← wsPlus r1
    let (d1, r3) ← spanDigits r2
    let (ws2, r4) := r3.span Char.isWhitespace
    let (pc, _) ← lit '%' r4
    some (ws1 ++ d1 ++ ws2 ++ pc, [String.mk d1]))

/-- The scan loop of `re.finditer`, with `fuel` bounding the recursion
(each step consumes at least one character, so `fuel ≥ cs.length` gives
the full scan). -/
def finditerAux (m : List Char → Option (List Char × List String)) :
    Nat → List Char → List (List Char × List String)
  | 0, _ => []
  | _ + 1, [] => []
  | fuel + 1, c :: rest =>
    match m (c :: rest) with
    | some (mt, gs) => (mt, gs) :: finditerAux m fuel (rest.drop (mt.length - 1))
    | none => finditerAux m fuel rest

/-- `re.finditer`: leftmost, non-overlapping matches, scanning left to
right and resuming after each match. -/
def finditer (m : List Char → Option (List Char × List String))
    (cs : List Char) : List (List Char × List String) :=
  finditerAux m cs.length cs

/-! ### Role inference (`PerformanceReviewParser._infer_role`, lines 60–79) -/

/-- Python `\w` over the ASCII inputs at hand. -/
def isWordChar (c : Char) : Bool := c.isAlphanum || c == '_'

/-- `\b` after a match ending in a word character: end of text or a
non-word character next. -/
def boundaryAfter : List Char → Bool
  | [] => true
  | c :: _ => !isWordChar c

/-- `\bsd[1-3]\b` on the lower-cased role text. -/
def matchSD : List Char → Option (List Char)
  | 's' :: 'd' :: d :: rest =>
    if (d == '1' || d == '2' || d == '3') && boundaryAfter rest then
      some ['s', 'd', d]
    else none
  | _ => none

/-- `\bsde\s*[1-3]\b` on the lower-cased role text. -/
def matchSDE : List Char → Option (List Char)
  | 's' :: 'd' :: 'e' :: rest =>
    let (ws, r2) := rest.span Char.isWhitespace
    match r2 with
    | d :: r3 =>
      if (d == '1' || d == '2' || d == '3') && boundaryAfter r3 then
        some ('s' :: 'd' :: 'e' :: (ws ++ [d]))
      else none
    | [] => none
  | _ => none

/-- `\b<w1>\s+<w2>\b` (used for the four two-word role patterns). -/
def matchTwoWords (w1 w2 : List Char) (cs : List Char) : Option (List Char) := do
  let (a, r1) ← stripCI w1 cs
  let (ws, r2) ← wsPlus r1
  let (b, r3) ← stripCI w2 r2
  if boundaryAfter r3 then some (a ++ ws ++ b) else none

def matchStaff : List Char → Option (List Char) :=
  matchTwoWords "staff".data "engineer".data

def matchSenior : List Char → Option (List Char) :=
  matchTwoWords "senior".data "engineer".data

def matchLead : List Char → Option (List Char) :=
  matchTwoWords "lead".data "engineer".data

def matchPrincipal : List Char → Option (List Char) :=
  matchTwoWords "principal".data "engineer".data

/-- `re.search` for a pattern beginning with `\b` + word character: scan
positions left to right, attempting the matcher only where the previous
character (tracked in `prevW`) is not a word character. -/
def searchBnd (m : List Char → Option (List Char)) :
    Bool → List Char → Option (List Char)
  | _, [] => none
  | prevW, c :: rest =>
    match (if prevW then none else m (c :: rest)) with
    | some r => some r
    | none => searchBnd m (isWordChar c) rest

/-- `re.search(pattern, text)` returning `match.group(0)`. -/
def reSearch (m : List Char → Option (List Char)) (s : String) : Option String :=
  (searchBnd m false s.data).map String.mk

/-- The six role patterns in source priority order (lines 65–72). -/
def roleMatchers : List (List Char → Option (List Char)) :=
  [matchSD, matchSDE, matchStaff, matchSenior, matchLead, matchPrincipal]

/-- The `for pattern in role_patterns` loop (lines 74–79): first pattern
with a match anywhere wins, its matched substring uppercased; otherwise
`UNKNOWN`. -/
def roleCascade : List (List Char → Option (List Char)) → String → String
  | [], _ => "UNKNOWN"
  | m :: ms, text =>
    match reSearch m text with
    | some s => pyUpper s
    | none => roleCascade ms text

/-- `f"{row.get('Owner', '')} {row.get('Title', '')}".lower()` (line 63). -/
def roleText (owner title : String) : String := pyLower (owner ++ " " ++ title)

/-- `PerformanceReviewParser._infer_role` (lines 60–79). -/
def inferRole (owner title : String) : String :=
  roleCascade roleMatchers (roleText owner title)

/-! ### Parser data model and `parse` (`src/parse_csv.py`) -/

/-- One CSV row, with the columns the parser reads (`row.get` defaults a
missing column to the empty string; `Progress %` defaults to `"0"` only
when the column is absent, which a total field cannot exhibit and no
claim exercises). -/
structure Record where
  owner : String
  ownerEmail : String
  teams : String
  title : String
  parentObjectiveTitle : String
  state : String
  startDate : String
  dueDate : String
  progressPct : String
  status : String
deriving DecidableEq

/-- A record with every field empty. -/
def emptyRecord : Record := ⟨"", "", "", "", "", "", "", "", "", ""⟩

structure Metadata where
  owner : String
  owner_email : String
  team : String
  role : String
deriving DecidableEq

structure Objective where
  title : String
  state : String
  start_date : String
  due_date : String
  progress : String
  status : String
deriving DecidableEq

structure Metric where
  text : String
  full_context : String
  groups : List String
deriving DecidableEq

/-- The mutable attributes of a `PerformanceReviewParser` instance
(`__init__`, lines 17–23).  `metadata = none` models the initial empty
dict `{}`; the technology set is kept as a duplicate-free list. -/
structure ParserState where
  raw_data : List Record
  objectives : List (String × List Objective)
  metadata : Option Metadata
  metrics : List Metric
  technologies : List String
deriving DecidableEq

/-- A freshly constructed parser. -/
def initState : ParserState := ⟨[], [], none, [], []⟩

/-- `_read_csv` (lines 41–45): replaces `raw_data` with the table rows. -/
def readCsv (st : ParserState) (table : List Record) : ParserState :=
  { st with raw_data := table }

/-- `_extract_metadata` (lines 47–58): early return on an empty table,
else build the metadata dict from the first row. -/
def extractMetadata (st : ParserState) : ParserState :=
  match st.raw_data with
  | [] => st
  | first :: _ =>
    { st with
      metadata := some
        { owner := pyStrip first.owner
          owner_email := pyStrip first.ownerEmail
          team := pyStrip first.teams
          role := inferRole first.owner first.title } }

def objOfRow (r : Record) : Objective :=
  { title := pyStrip r.title, state := r.state, start_date := r.startDate,
    due_date := r.dueDate, progress := r.progressPct, status := r.status }

/-- `defaultdict(list)` append: extend the list at `key`, creating the key
at the end on first use. -/
def idxAppend (idx : List (String × List Objective)) (key : String)
    (o : Objective) : List (String × List Objective) :=
  match idx with
  | [] => [(key, [o])]
  | (k, os) :: rest =>
    if k == key then (k, os ++ [o]) :: rest else (k, os) :: idxAppend rest key o

/-- One iteration of the `_group_objectives` loop (lines 83–95). -/
def groupStep (idx : List (String × List Objective)) (r : Record) :
    List (String × List Objective) :=
  if pyStrip r.title ≠ "" && pyStrip r.parentObjectiveTitle ≠ "" then
    idxAppend idx (pyStrip r.parentObjectiveTitle) (objOfRow r)
  else idx

/-- `_group_objectives` (lines 81–95): accumulates into the existing
`objectives` container. -/
def groupObjectives (st : ParserState) : ParserState :=
  { st with objectives := st.raw_data.foldl groupStep st.objectives }

/-- The eight metric patterns in source order (lines 99–116). -/
def metric_matchers : List (List Char → Option (List Char × List String)) :=
  [matchPctRange, matchDurRange, matchRsRange, matchVerRange, matchCount,
   matchMult, matchPct, matchReduction]

/-- All metrics one title contributes, pattern by pattern in source order,
matches left to right. -/
def metricsOfTitle (title : String) : List Metric :=
  metric_matchers.flatMap (fun m =>
    (finditer m title.data).map (fun r => ⟨String.mk r.1, title, r.2⟩))

/-- All metrics a table contributes, row by row. -/
def metricsOfRows (rows : List Record) : List Metric :=
  rows.flatMap (fun r => metricsOfTitle r.title)

/-- `_extract_metrics` (lines 97–127): appends to the existing
`self.metrics` list. -/
def extractMetricsStep (st : ParserState) : ParserState :=
  { st with metrics := st.metrics ++ metricsOfRows st.raw_data }

/-- The fixed technology vocabulary (lines 131–140), in source order. -/
def tech_keywords : List String :=
  ["React Native", "MMKV", "Databricks", "Mixpanel", "AsyncStorage",
   "Fabric", "TurboModules", "Protobufs", "Crashlytics", "SDK",
   "DigiLocker", "Acko", "ZeptoLocker", "AETHER", "Horizon",
   "CleverTap", "AppsFlyer", "KNOW SDK", "HyperVerge", "Lucid",
   "ClickHouse", "Kafka", "LogChef", "Storybook", "Fresco",
   "pdfplumber", "native-stack", "KeyboardController",
   "PagerView", "Android", "iOS", "TypeScript", "JavaScript",
   "Python", "Node.js", "API", "JWT", "OAuth"]

/-- `' '.join(row.get('Title', '') for row in self.raw_data)` (line 142). -/
def joinSp : List (List Char) → List Char
  | [] => []
  | [x] => x
  | x :: y :: rest => x ++ ' ' :: joinSp (y :: rest)

def corpusOf (rows : List Record) : String :=
  String.mk (joinSp (rows.map (fun r => r.title.data)))

/-- `_extract_technologies` (lines 129–147): case-insensitive literal
search of each vocabulary entry over the title corpus; found names are
added to the set (duplicate-free insertion). -/
def extractTechnologiesStep (st : ParserState) : ParserState :=
  { st with
    technologies := tech_keywords.foldl
      (fun acc t =>
        if pyContains (pyLower (corpusOf st.raw_data)) (pyLower t)
            && !acc.contains t then
          acc ++ [t]
        else acc)
      st.technologies }

structure PSummary where
  total_objectives : Nat
  categories : List String
  category_counts : List (String × Nat)
  metrics_count : Nat
  technologies_count : Nat
deriving DecidableEq

/-- `_generate_summary` (lines 149–159). -/
def generateSummary (st : ParserState) : PSummary :=
  { total_objectives := (st.objectives.map (fun p => p.2.length)).sum,
    categories := st.objectives.map Prod.fst,
    category_counts := st.objectives.map (fun p => (p.1, p.2.length)),
    metrics_count := st.metrics.length,
    technologies_count := st.technologies.length }

/-- Insertion sort on strings (Python `sorted`, lexicographic by code
point). -/
def ltChars : List Char → List Char → Bool
  | [], [] => false
  | [], _ :: _ => true
  | _ :: _, [] => false
  | a :: as, b :: bs =>
    if a < b then true else if b < a then false else ltChars as bs

def insertStr (x : String) : List String → List String
  | [] => [x]
  | y :: ys => if ltChars x.data y.data then x :: y :: ys else y :: insertStr x ys

def sortStr : List String → List String
  | [] => []
  | x :: xs => insertStr x (sortStr xs)

/-- The assembled return value of `parse` (lines 33–39). -/
structure Dataset where
  metadata : Option Metadata
  objectives : List (String × List Objective)
  metrics : List Metric
  technologies : List String
  summary : PSummary
deriving DecidableEq

/-- `PerformanceReviewParser.parse` (lines 25–39), as a transformation of
the instance state: reading the table, the four extraction passes (which
mutate the instance in place), and the assembled dataset. -/
def parse (st : ParserState) (table : List Record) : ParserState × Dataset :=
  let s5 := extractTechnologiesStep
    (extractMetricsStep (groupObjectives (extractMetadata (readCsv st table))))
  (s5,
   { metadata := s5.metadata, objectives := s5.objectives,
     metrics := s5.metrics, technologies := sortStr s5.technologies,
     summary := generateSummary s5 })

/-! ### Concrete inputs reused by several theorems -/

/-- A table row whose title is the percentage-range example from the spec. -/
def r99 : Record := { emptyRecord with title := "99.4% to 99.73%" }

/-! ### C10 -/

/-- C10: parsing a table with zero records yields a dataset whose metadata
is the empty dict (`none` — no owner/owner_email/team/role fields, in
particular no `UNKNOWN` role), empty objectives, metrics and
technologies, and an all-zero summary. -/
theorem c10_empty_table_dataset :
    (parse initState []).2.metadata = none ∧
    (parse initState []).2.objectives = [] ∧
    (parse initState []).2.metrics = [] ∧
    (parse initState []).2.technologies = [] ∧
    (parse initState []).2.summary =
      { total_objectives := 0, categories := [], category_counts := [],
        metrics_count := 0, technologies_count := 0 } := by
  decide

/-! ### C8 -/

/-- C8: on the title `"99.4% to 99.73%"` the percentage-range pattern
matches once with text `"99.4% to 99.73%"`, the bare-percentage pattern
matches `"99.4%"` and `"99.73%"`, no other pattern matches, and — the
patterns being applied independently with overlapping matches retained —
extraction yields exactly those three metrics in
record-then-pattern-then-left-to-right order, both from the title
extractor and through `parse`. -/
theorem c8_pct_range_overlap :
    (finditer matchPctRange "99.4% to 99.73%".data).map
        (fun r => String.mk r.1) = ["99.4% to 99.73%"] ∧
    (finditer matchPct "99.4% to 99.73%".data).map
        (fun r => String.mk r.1) = ["99.4%", "99.73%"] ∧
    metricsOfTitle "99.4% to 99.73%" =
      [{ text := "99.4% to 99.73%", full_context := "99.4% to 99.73%",
         groups := ["99.4", "99.73"] },
       { text := "99.4%", full_context := "99.4% to 99.73%", groups := ["99.4"] },
       { text := "99.73%", full_context := "99.4% to 99.73%", groups := ["99.73"] }] ∧
    (parse initState [r99]).2.metrics = metricsOfTitle "99.4% to 99.73%" := by
  decide

/-! ### C9 -/

/-- C9 (failing input): invoking `parse` twice on the same parser instance
with the identical one-row table is *not* idempotent: the first parse
extracts 3 metrics, the second returns 6 — the metric extractor appends
its matches to the instance list again instead of starting clean — so the
second dataset differs from the first. -/
theorem c9_reparse_accumulates :
    (parse initState [r99]).2.metrics.length = 3 ∧
    (parse (parse initState [r99]).1 [r99]).2.metrics.length = 6 ∧
    (parse (parse initState [r99]).1 [r99]).1.metrics =
      (parse initState [r99]).1.metrics ++ (parse initState [r99]).1.metrics ∧
    (parse (parse initState [r99]).1 [r99]).2 ≠ (parse initState [r99]).2 := by
  decide

/-! ### Penalty lemmas -/

theorem lengthCheck_pen_nonneg (r : String) : 0 ≤ (lengthCheck r).2.2 := by
  unfold lengthCheck
  dsimp only
  split_ifs <;> norm_num

theorem roleCheck_pen_nonneg (v : VData) (r : String) :
    0 ≤ (roleCheck v r).2 := by
  unfold roleCheck
  split_ifs <;> norm_num

theorem teamCheck_pen_nonneg (v : VData) (r : String) :
    0 ≤ (teamCheck v r).2 := by
  unfold teamCheck
  split_ifs <;> norm_num

theorem openingCheck_pen_nonneg (r : String) : 0 ≤ (openingCheck r).2 := by
  unfold openingCheck
  split_ifs <;> norm_num

theorem metricsCheck_pen_nonneg (v : VData) (n r : String) :
    0 ≤ (metricsCheck v n r).2 := by
  unfold metricsCheck
  dsimp only
  split_ifs <;> norm_num

theorem genericCheck_pen_nonneg (r : String) : 0 ≤ (genericCheck r).2 := by
  unfold genericCheck
  dsimp only
  positivity

theorem techCheck_pen_nonneg (v : VData) (n r : String) :
    0 ≤ (techCheck v n r).2 := by
  unfold techCheck
  split_ifs <;> norm_num

theorem varietyCheck_pen_nonneg (r : String) : 0 ≤ (varietyCheck r).2 := by
  unfold varietyCheck
  dsimp only
  split_ifs <;> norm_num

theorem repeatCheck_pen_nonneg (r : String) : 0 ≤ (repeatCheck r).2 := by
  unfold repeatCheck
  dsimp only
  split_ifs <;> norm_num

theorem digitCheck_pen_nonneg (n r : String) : 0 ≤ (digitCheck n r).2 := by
  unfold digitCheck
  dsimp only
  split_ifs <;> norm_num

theorem passiveCheck_pen_nonneg (r : String) : 0 ≤ (passiveCheck r).2 := by
  unfold passiveCheck
  dsimp only
  split_ifs <;> norm_num

theorem totalPenalty_nonneg (v : VData) (n r : String) :
    0 ≤ totalPenalty v n r := by
  unfold totalPenalty
  linarith [lengthCheck_pen_nonneg r, roleCheck_pen_nonneg v r,
    teamCheck_pen_nonneg v r, openingCheck_pen_nonneg r,
    metricsCheck_pen_nonneg v n r, genericCheck_pen_nonneg r,
    techCheck_pen_nonneg v n r, varietyCheck_pen_nonneg r,
    repeatCheck_pen_nonneg r, digitCheck_pen_nonneg n r,
    passiveCheck_pen_nonneg r]

/-! ### C6 -/

/-- C6: for every dataset and candidate text, the score returned by
`validate_section` equals `max(0, 100 − sum(penalties))` and lies in
`[0, 100]` — never negative even when the penalties sum past 100, and
never above 100. -/
theorem c6_score_in_range (v : VData) (sectionName response : String) :
    (validate_section v sectionName response).2.2 =
      max 0 (100 - totalPenalty v sectionName response) ∧
    0 ≤ (validate_section v sectionName response).2.2 ∧
    (validate_section v sectionName response).2.2 ≤ 100 := by
  refine ⟨rfl, le_max_left _ _, ?_⟩
  have h := totalPenalty_nonneg v sectionName response
  have : (validate_section v sectionName response).2.2 =
      max 0 (100 - totalPenalty v sectionName response) := rfl
  rw [this]
  apply max_le (by norm_num)
  linarith

/-! ### C7 -/

/-- C7: the per-section status thresholds are boundary-inclusive at the
documented cut points (90 EXCELLENT, 89/75 GOOD, 74/60 NEEDS_WORK,
59 POOR), and the overall status bands the average score at 90 and 75. -/
theorem c7_status_bands :
    sectionStatus 90 = "EXCELLENT" ∧ sectionStatus 89 = "GOOD" ∧
    sectionStatus 75 = "GOOD" ∧ sectionStatus 74 = "NEEDS_WORK" ∧
    sectionStatus 60 = "NEEDS_WORK" ∧ sectionStatus 59 = "POOR" ∧
    ∀ avg : ℚ,
      (90 ≤ avg → overallStatus avg = "EXCELLENT") ∧
      (75 ≤ avg → avg < 90 → overallStatus avg = "GOOD") ∧
      (avg < 75 → overallStatus avg = "NEEDS_IMPROVEMENT") := by
  refine ⟨by decide, by decide, by decide, by decide, by decide, by decide, ?_⟩
  intro avg
  refine ⟨fun h => ?_, fun h1 h2 => ?_, fun h => ?_⟩
  · unfold overallStatus
    rw [if_pos h]
  · unfold overallStatus
    rw [if_neg (not_le.mpr h2), if_pos h1]
  · unfold overallStatus
    rw [if_neg (not_le.mpr (by linarith)), if_neg (not_le.mpr h)]

/-- Witness for C7: the overall bands applied at 95, 80 and 10. -/
theorem c7_status_bands_witness :
    overallStatus 95 = "EXCELLENT" ∧ overallStatus 80 = "GOOD" ∧
    overallStatus 10 = "NEEDS_IMPROVEMENT" :=
  ⟨(c7_status_bands.2.2.2.2.2.2 95).1 (by norm_num),
   (c7_status_bands.2.2.2.2.2.2 80).2.1 (by norm_num) (by norm_num),
   (c7_status_bands.2.2.2.2.2.2 10).2.2 (by norm_num)⟩

/-! ### C4 -/

/-- C4 (amended): a blank (empty or whitespace-only) response
short-circuits validation — the recorded result is exactly the single
error `"Section is empty"`, no warnings, score 0, status `ERROR`, and
*no* `word_count` field (the short-circuit branch stores none). -/
theorem c4_blank_section_short_circuit (v : VData)
    (sectionName response : String) (h : pyBlank response = true) :
    sectionResult v sectionName response =
      { errors := ["Section is empty"], warnings := [], score := 0,
        status := "ERROR", word_count := none } := by
  unfold sectionResult
  rw [if_pos h]

/-- Witness for C4: the short-circuit at a whitespace-only response. -/
theorem c4_blank_section_short_circuit_witness :
    sectionResult ⟨[], [], "UNKNOWN", ""⟩ "Impact" "   " =
      { errors := ["Section is empty"], warnings := [], score := 0,
        status := "ERROR", word_count := none } :=
  c4_blank_section_short_circuit ⟨[], [], "UNKNOWN", ""⟩ "Impact" "   "
    (by decide)

/-- Counterexample for C4 as stated: in a full review, the result stored
for an empty section has `word_count = none` — there is no `word_count`
field, contrary to the claim that every `ValidationResult` carries one. -/
theorem c4_empty_section_lacks_word_count :
    (validate_full_review ⟨[], [], "UNKNOWN", ""⟩ [("Impact", "")]).sections =
      [("Impact",
        { errors := ["Section is empty"], warnings := [], score := 0,
          status := "ERROR", word_count := none })] ∧
    ((validate_full_review ⟨[], [], "UNKNOWN", ""⟩
        [("Impact", "")]).sections.map (fun p => p.2.word_count)) = [none] := by
  decide

/-! ### C5 -/

/-- The `i`-th role pattern in the source priority order. -/
def nthRoleMatcher (i : Fin 6) : List Char → Option (List Char) :=
  roleMatchers.get ⟨i.val, i.isLt⟩

theorem roleCascade_cons_none (m : List Char → Option (List Char))
    (ms : List (List Char → Option (List Char))) (t : String)
    (h : reSearch m t = none) :
    roleCascade (m :: ms) t = roleCascade ms t := by
  simp only [roleCascade]
  rw [h]

theorem roleCascade_cons_some (m : List Char → Option (List Char))
    (ms : List (List Char → Option (List Char))) (t s : String)
    (h : reSearch m t = some s) :
    roleCascade (m :: ms) t = pyUpper s := by
  simp only [roleCascade]
  rw [h]

/-- C5: over the lower-cased concatenation of owner and title, when the
pattern at priority index `i` is the first (in the fixed priority order
SD[1-3], SDE[1-3], STAFF/SENIOR/LEAD/PRINCIPAL ENGINEER) that matches —
even though some later-priority pattern also matches somewhere in the
text — the inferred role is that pattern's uppercased match, regardless
of match positions; and when no pattern matches the role is
`"UNKNOWN"`. -/
theorem c5_role_priority_cascade :
    (∀ owner title : String, ∀ i : Fin 6, ∀ s : String,
      (∀ j : Fin 6, j < i →
        reSearch (nthRoleMatcher j) (roleText owner title) = none) →
      reSearch (nthRoleMatcher i) (roleText owner title) = some s →
      (∃ j : Fin 6, i < j ∧
        (reSearch (nthRoleMatcher j) (roleText owner title)).isSome) →
      inferRole owner title = pyUpper s) ∧
    (∀ owner title : String,
      (∀ i : Fin 6,
        reSearch (nthRoleMatcher i) (roleText owner title) = none) →
      inferRole owner title = "UNKNOWN") := by
  constructor
  · intro owner title i s hprev hi _hsecond
    unfold inferRole
    unfold roleMatchers
    fin_cases i
    · have hk : reSearch matchSD (roleText owner title) = some s := hi
      exact roleCascade_cons_some _ _ _ _ hk
    · have h0 : reSearch matchSD (roleText owner title) = none :=
        hprev 0 (by decide)
      have hk : reSearch matchSDE (roleText owner title) = some s := hi
      rw [roleCascade_cons_none _ _ _ h0]
      exact roleCascade_cons_some _ _ _ _ hk
    · have h0 : reSearch matchSD (roleText owner title) = none :=
        hprev 0 (by decide)
      have h1 : reSearch matchSDE (roleText owner title) = none :=
        hprev 1 (by decide)
      have hk : reSearch matchStaff (roleText owner title) = some s := hi
      rw [roleCascade_cons_none _ _ _ h0]
      rw [roleCascade_cons_none _ _ _ h1]
      exact roleCascade_cons_some _ _ _ _ hk
    · have h0 : reSearch matchSD (roleText owner title) = none :=
        hprev 0 (by decide)
      have h1 : reSearch matchSDE (roleText owner title) = none :=
        hprev 1 (by decide)
      have h2 : reSearch matchStaff (roleText owner title) = none :=
        hprev 2 (by decide)
      have hk : reSearch matchSenior (roleText owner title) = some s := hi
      rw [roleCascade_cons_none _ _ _ h0]
      rw [roleCascade_cons_none _ _ _ h1]
      rw [roleCascade_cons_none _ _ _ h2]
      exact roleCascade_cons_some _ _ _ _ hk
    · have h0 : reSearch matchSD (roleText owner title) = none :=
        hprev 0 (by decide)
      have h1 : reSearch matchSDE (roleText owner title) = none :=
        hprev 1 (by decide)
      have h2 : reSearch matchStaff (roleText owner title) = none :=
        hprev 2 (by decide)
      have h3 : reSearch matchSenior (roleText owner title) = none :=
        hprev 3 (by decide)
      have hk : reSearch matchLead (roleText owner title) = some s := hi
      rw [roleCascade_cons_none _ _ _ h0]
      rw [roleCascade_cons_none _ _ _ h1]
      rw [roleCascade_cons_none _ _ _ h2]
      rw [roleCascade_cons_none _ _ _ h3]
      exact roleCascade_cons_some _ _ _ _ hk
    · have h0 : reSearch matchSD (roleText owner title) = none :=
        hprev 0 (by decide)
      have h1 : reSearch matchSDE (roleText owner title) = none :=
        hprev 1 (by decide)
      have h2 : reSearch matchStaff (roleText owner title) = none :=
        hprev 2 (by decide)
      have h3 : reSearch matchSenior (roleText owner title) = none :=
        hprev 3 (by decide)
      have h4 : reSearch matchLead (roleText owner title) = none :=
        hprev 4 (by decide)
      have hk : reSearch matchPrincipal (roleText owner title) = some s := hi
      rw [roleCascade_cons_none _ _ _ h0]
      rw [roleCascade_cons_none _ _ _ h1]
      rw [roleCascade_cons_none _ _ _ h2]
      rw [roleCascade_cons_none _ _ _ h3]
      rw [roleCascade_cons_none _ _ _ h4]
      exact roleCascade_cons_some _ _ _ _ hk
  · intro owner title hall
    unfold inferRole
    unfold roleMatchers
    have h0 : reSearch matchSD (roleText owner title) = none := hall 0
    have h1 : reSearch matchSDE (roleText owner title) = none := hall 1
    have h2 : reSearch matchStaff (roleText owner title) = none := hall 2
    have h3 : reSearch matchSenior (roleText owner title) = none := hall 3
    have h4 : reSearch matchLead (roleText owner title) = none := hall 4
    have h5 : reSearch matchPrincipal (roleText owner title) = none := hall 5
    rw [roleCascade_cons_none _ _ _ h0]
    rw [roleCascade_cons_none _ _ _ h1]
    rw [roleCascade_cons_none _ _ _ h2]
    rw [roleCascade_cons_none _ _ _ h3]
    rw [roleCascade_cons_none _ _ _ h4]
    rw [roleCascade_cons_none _ _ _ h5]
    rfl

/-- Witness for C5: on `"senior engineer and sd2"` the SD pattern (higher
priority) beats the senior-engineer pattern that sits earlier in the
text, giving `SD2`; on a text with no pattern the role is `UNKNOWN`. -/
theorem c5_role_priority_cascade_witness :
    inferRole "x" "senior engineer and sd2" = "SD2" ∧
    inferRole "nobody" "manager of things" = "UNKNOWN" :=
  ⟨(c5_role_priority_cascade.1 "x" "senior engineer and sd2" 0 "sd2"
      (fun j hj => absurd hj (Nat.not_lt_zero j.val))
      (by decide)
      ⟨3, by decide, by decide⟩).trans (by decide),
   c5_role_priority_cascade.2 "nobody" "manager of things" (by decide)⟩

/-! ### C2 -/

/-- A validator dataset with role `SD2` and team `Platform` and no
metrics or technologies. -/
def cV0 : VData := ⟨[], [], "SD2", "Platform"⟩

/-- A 45-word single-sentence response that starts with `"As an"` and
mentions neither `SD2` nor `Platform`. -/
def cResp45 : String :=
  "As an engineer I designed and delivered the payments migration effort this half while partnering closely with product and infra colleagues to ship resilient tooling reduce incident load document runbooks and mentor newer teammates across planning execution review and launch phases without sacrificing reliability goals"

/-- C2 (amended): a response of exactly 45 words that omits the required
role (role ≠ UNKNOWN) and the non-empty team text gets a short-length
*warning* (penalty 5, the 40–59 band), not an error, so `errors` has
exactly the two missing-role and missing-team entries and the score is
at most `100 − 5 − 15 − 15 = 65`. -/
theorem c2_forty_five_words_missing_role_team (v : VData)
    (sectionName response : String)
    (hwc : wordCount response = 45)
    (hrole : v.role ≠ "UNKNOWN")
    (hrm : pyContains response v.role = false)
    (hteam : v.team ≠ "")
    (htm : pyContains response v.team = false) :
    (validate_section v sectionName response).1 =
      [roleMsg v.role, teamMsg v.team] ∧
    shortMsg 45 ∈ (validate_section v sectionName response).2.1 ∧
    (validate_section v sectionName response).2.2 ≤ 65 := by
  have hlen : lengthCheck response = ([], [shortMsg 45], 5) := by
    unfold lengthCheck
    rw [hwc]
    norm_num
  have hrc : roleCheck v response = ([roleMsg v.role], 15) := by
    unfold roleCheck
    simp [hrole, hrm]
  have htc : teamCheck v response = ([teamMsg v.team], 15) := by
    unfold teamCheck
    simp [hteam, htm]
  refine ⟨?_, ?_, ?_⟩
  · have he : (validate_section v sectionName response).1 =
        (lengthCheck response).1 ++ (roleCheck v response).1
          ++ (teamCheck v response).1 := rfl
    rw [he, hlen, hrc, htc]
    rfl
  · have hw : (validate_section v sectionName response).2.1 =
        (lengthCheck response).2.1 ++ (openingCheck response).1
          ++ (metricsCheck v sectionName response).1 ++ (genericCheck response).1
          ++ (techCheck v sectionName response).1 ++ (varietyCheck response).1
          ++ (repeatCheck response).1 ++ (digitCheck sectionName response).1
          ++ (passiveCheck response).1 := rfl
    rw [hw, hlen]
    simp
  · have hs : (validate_section v sectionName response).2.2 =
        max 0 (100 - totalPenalty v sectionName response) := rfl
    have hp : (35 : Int) ≤ totalPenalty v sectionName response := by
      unfold totalPenalty
      rw [hlen, hrc, htc]
      have h4 := openingCheck_pen_nonneg response
      have h5 := metricsCheck_pen_nonneg v sectionName response
      have h6 := genericCheck_pen_nonneg response
      have h7 := techCheck_pen_nonneg v sectionName response
      have h8 := varietyCheck_pen_nonneg response
      have h9 := repeatCheck_pen_nonneg response
      have h10 := digitCheck_pen_nonneg sectionName response
      have h11 := passiveCheck_pen_nonneg response
      norm_num
      linarith
    rw [hs]
    apply max_le (by norm_num)
    linarith

set_option maxRecDepth 40000 in
/-- Witness for C2 (amended), at the concrete 45-word response. -/
theorem c2_forty_five_words_missing_role_team_witness :
    (validate_section cV0 "Growth" cResp45).1 =
      [roleMsg "SD2", teamMsg "Platform"] ∧
    shortMsg 45 ∈ (validate_section cV0 "Growth" cResp45).2.1 ∧
    (validate_section cV0 "Growth" cResp45).2.2 ≤ 65 :=
  c2_forty_five_words_missing_role_team cV0 "Growth" cResp45
    (by decide) (by decide) (by decide) (by decide) (by decide)

set_option maxRecDepth 40000 in
/-- Counterexample for C2 as stated: on the concrete 45-word response the
errors list has two entries, not at least three, and the score is 65,
not 50. -/
theorem c2_counterexample_45_words :
    wordCount cResp45 = 45 ∧
    (validate_section cV0 "Growth" cResp45).1.length = 2 ∧
    (validate_section cV0 "Growth" cResp45).2.2 = 65 ∧
    ¬(3 ≤ (validate_section cV0 "Growth" cResp45).1.length ∧
      (validate_section cV0 "Growth" cResp45).2.2 = 50) := by
  decide

/-! ### C1 -/

/-- The sections that are actually validated: those whose response is not
blank (the `continue` on line 147 skips the rest). -/
def validatedResponses (responses : List (String × String)) :
    List (String × String) :=
  responses.filter (fun p => !pyBlank p.2)

/-- Stated from the claim's words, for comparison with the code: the
arithmetic mean of the per-section scores over *all* sections submitted,
a blank section counting toward the denominator with score 0. -/
def claimMeanAllSections (v : VData) (responses : List (String × String)) : ℚ :=
  if responses.length = 0 then 0
  else ((responses.map (fun p => (sectionResult v p.1 p.2).score)).sum : ℚ) /
    responses.length

/-- The mean the code computes: per-section scores averaged over the
non-blank sections only. -/
def meanOverValidated (v : VData) (responses : List (String × String)) : ℚ :=
  if (validatedResponses responses).length = 0 then 0
  else (((validatedResponses responses).map
      (fun p => (validate_section v p.1 p.2).2.2)).sum : ℚ) /
    (validatedResponses responses).length

theorem sectionResult_score_of_nonblank (v : VData) (n r : String)
    (h : pyBlank r = false) :
    (sectionResult v n r).score = (validate_section v n r).2.2 := by
  simp [sectionResult, h]

theorem vfrAux_totals (v : VData) (responses : List (String × String)) :
    (vfrAux v responses).2.1 =
      ((validatedResponses responses).map
        (fun p => (validate_section v p.1 p.2).2.2)).sum ∧
    (vfrAux v responses).2.2.1 = (validatedResponses responses).length := by
  induction responses with
  | nil => exact ⟨rfl, rfl⟩
  | cons p rest ih =>
    obtain ⟨name, resp⟩ := p
    by_cases h : pyBlank resp = true
    · constructor
      · simp only [vfrAux, h, if_true, validatedResponses, List.filter_cons,
          Bool.not_true, ih.1]
        rfl
      · simp only [vfrAux, h, if_true, validatedResponses, List.filter_cons,
          Bool.not_true, ih.2]
        rfl
    · have hb : pyBlank resp = false := by
        cases hx : pyBlank resp
        · rfl
        · exact absurd hx h
      constructor
      · simp only [vfrAux, hb, Bool.false_eq_true, if_false, validatedResponses,
          List.filter_cons, Bool.not_false, if_true, List.map_cons, List.sum_cons]
        rw [sectionResult_score_of_nonblank v name resp hb]
        rw [ih.1]
        rfl
      · simp only [vfrAux, hb, Bool.false_eq_true, if_false, validatedResponses,
          List.filter_cons, Bool.not_false, if_true, List.length_cons]
        rw [ih.2]
        rfl

/-- C1 (amended): the report's `average_score` is the (rounded)
arithmetic mean of per-section scores over the *non-blank* sections only;
a blank section is excluded from both the numerator and the denominator
(`sections_validated` likewise counts only non-blank sections, and the
average is 0 when every section is blank). -/
theorem c1_average_excludes_blank_sections (v : VData)
    (responses : List (String × String)) :
    (validate_full_review v responses).summary.average_score =
      pyRound1 (meanOverValidated v responses) ∧
    (validate_full_review v responses).summary.sections_validated =
      (validatedResponses responses).length := by
  obtain ⟨h1, h2⟩ := vfrAux_totals v responses
  constructor
  · show pyRound1 (avgScore (vfrAux v responses).2.1
      (vfrAux v responses).2.2.1) = _
    congr 1
    rw [avgScore, meanOverValidated, h1, h2]
    rcases Nat.eq_zero_or_pos (validatedResponses responses).length with h | h
    · simp [h]
    · rw [if_pos h, if_neg (by omega)]
  · exact h2

theorem pyRound1_intCast (k : ℤ) : pyRound1 (k : ℚ) = k := by
  have h1 : (10 : ℚ) * (k : ℚ) = ((10 * k : ℤ) : ℚ) := by push_cast; ring
  unfold pyRound1 ratFloor
  rw [h1]
  dsimp only
  rw [Rat.num_intCast, Rat.den_intCast, Nat.cast_one, Int.fdiv_one,
    sub_self, if_pos (by norm_num : (0 : ℚ) < 1 / 2)]
  push_cast
  ring

/-- The two-section review used to refute C1 as stated: one blank
section, one one-word section scoring 40. -/
def cC1Resps : List (String × String) := [("A", ""), ("B", "x")]

/-- Counterexample for C1 as stated: with a blank section `A` and a
section `B` scoring 40, the report's average is 40 (the blank section is
excluded from the denominator), while the mean over all submitted
sections with the blank counting 0 would be 20. -/
theorem c1_counterexample_blank_denominator :
    (validate_full_review cV0 cC1Resps).summary.average_score = 40 ∧
    claimMeanAllSections cV0 cC1Resps = 20 ∧
    (40 : ℚ) ≠ 20 := by
  refine ⟨?_, ?_, by norm_num⟩
  · have hts : (vfrAux cV0 cC1Resps).2.1 = 40 := by decide
    have hn : (vfrAux cV0 cC1Resps).2.2.1 = 1 := by decide
    show pyRound1 (avgScore (vfrAux cV0 cC1Resps).2.1
      (vfrAux cV0 cC1Resps).2.2.1) = 40
    rw [hts, hn]
    have ha : avgScore 40 1 = ((40 : ℤ) : ℚ) := by
      unfold avgScore
      norm_num
    rw [ha, pyRound1_intCast]
    norm_num
  · have hs : (cC1Resps.map (fun p => (sectionResult cV0 p.1 p.2).score)).sum
        = 40 := by decide
    unfold claimMeanAllSections
    rw [hs]
    norm_num [cC1Resps]

/-! ### C3 -/

theorem data_append (s t : String) : (s ++ t).data = s.data ++ t.data := by
  cases s
  cases t
  rfl

theorem ne_of_data_ne (s t : String) (h : s.data ≠ t.data) : s ≠ t :=
  fun e => h (congrArg String.data e)

/-- Two strings differ when one starts with `c`, the other with `d`, and
`c ≠ d` — stated for a string of the shape `a ++ x ++ y` so it applies to
the formatted length-warning messages for every word count. -/
theorem prefix_head_ne (a b : String) (c d : Char) (ra rb : List Char)
    (ha : a.data = c :: ra) (hb : b.data = d :: rb) (hcd : c ≠ d)
    (x y : String) : a ++ x ++ y ≠ b := by
  apply ne_of_data_ne
  rw [data_append, data_append, ha, hb]
  simp [hcd]

theorem shortMsg_ne_noMetrics (n : Nat) : shortMsg n ≠ noMetricsMsg :=
  prefix_head_ne "Response is short (" noMetricsMsg 'R' 'N' _ _ rfl rfl
    (by decide) _ _

theorem shortMsg_ne_fewMetrics (n : Nat) : shortMsg n ≠ fewMetricsMsg :=
  prefix_head_ne "Response is short (" fewMetricsMsg 'R' 'C' _ _ rfl rfl
    (by decide) _ _

theorem longMsg_ne_noMetrics (n : Nat) : longMsg n ≠ noMetricsMsg :=
  prefix_head_ne "Response is long (" noMetricsMsg 'R' 'N' _ _ rfl rfl
    (by decide) _ _

theorem longMsg_ne_fewMetrics (n : Nat) : longMsg n ≠ fewMetricsMsg :=
  prefix_head_ne "Response is long (" fewMetricsMsg 'R' 'C' _ _ rfl rfl
    (by decide) _ _

theorem notin_lengthCheck (r x : String)
    (h1 : ∀ n, x ≠ shortMsg n) (h2 : ∀ n, x ≠ longMsg n) :
    x ∉ (lengthCheck r).2.1 := by
  unfold lengthCheck
  dsimp only
  split_ifs <;> simp [h1, h2]

theorem notin_openingCheck (r x : String) (h : x ≠ openingMsg) :
    x ∉ (openingCheck r).1 := by
  unfold openingCheck
  split_ifs <;> simp [h]

theorem notin_genericCheck (r x : String)
    (h : ∀ pr ∈ generic_phrases, x ≠ genericMsg pr.1 pr.2) :
    x ∉ (genericCheck r).1 := by
  unfold genericCheck
  dsimp only
  intro hx
  obtain ⟨pr, hpr, hfa⟩ := List.mem_map.1 hx
  have hmem : pr ∈ generic_phrases := by
    unfold genericHits at hpr
    exact (List.mem_filter.1 hpr).1
  exact h pr hmem hfa.symm

theorem notin_techCheck (v : VData) (n r x : String) (h : x ≠ noTechMsg) :
    x ∉ (techCheck v n r).1 := by
  unfold techCheck
  split_ifs <;> simp [h]

theorem notin_varietyCheck (r x : String) (h : x ≠ varyMsg) :
    x ∉ (varietyCheck r).1 := by
  unfold varietyCheck
  dsimp only
  split_ifs <;> simp [h]

theorem notin_repeatCheck (r x : String) (h : x ≠ repeatMsg) :
    x ∉ (repeatCheck r).1 := by
  unfold repeatCheck
  dsimp only
  split_ifs <;> simp [h]

theorem notin_digitCheck (n r x : String) (h : x ≠ noDigitMsg) :
    x ∉ (digitCheck n r).1 := by
  unfold digitCheck
  dsimp only
  split_ifs <;> simp [h]

theorem notin_passiveCheck (r x : String) (h : x ≠ passiveMsg) :
    x ∉ (passiveCheck r).1 := by
  unfold passiveCheck
  dsimp only
  split_ifs <;> simp [h]

/-- All generic-phrase messages differ from both metric warnings. -/
theorem genericMsg_ne_metric_msgs :
    ∀ pr ∈ generic_phrases,
      genericMsg pr.1 pr.2 ≠ noMetricsMsg ∧
      genericMsg pr.1 pr.2 ≠ fewMetricsMsg := by
  decide

/-- The warnings of `validate_section` are the per-check warning lists in
source order. -/
theorem validate_section_warnings (v : VData) (n r : String) :
    (validate_section v n r).2.1 =
      (lengthCheck r).2.1 ++ (openingCheck r).1 ++ (metricsCheck v n r).1
        ++ (genericCheck r).1 ++ (techCheck v n r).1 ++ (varietyCheck r).1
        ++ (repeatCheck r).1 ++ (digitCheck n r).1 ++ (passiveCheck r).1 := rfl

/-- Membership of either metric warning in the full warning list is
exactly membership in the metrics check's contribution: no other check
can produce either message. -/
theorem metric_msg_mem_iff (v : VData) (n r x : String)
    (hx : x = noMetricsMsg ∨ x = fewMetricsMsg) :
    (x ∈ (validate_section v n r).2.1 ↔ x ∈ (metricsCheck v n r).1) := by
  have hshort : ∀ m, x ≠ shortMsg m := by
    intro m
    rcases hx with h | h <;> subst h
    · exact (shortMsg_ne_noMetrics m).symm
    · exact (shortMsg_ne_fewMetrics m).symm
  have hlong : ∀ m, x ≠ longMsg m := by
    intro m
    rcases hx with h | h <;> subst h
    · exact (longMsg_ne_noMetrics m).symm
    · exact (longMsg_ne_fewMetrics m).symm
  have hopen : x ≠ openingMsg := by
    rcases hx with h | h <;> subst h <;> decide
  have hgen : ∀ pr ∈ generic_phrases, x ≠ genericMsg pr.1 pr.2 := by
    intro pr hpr
    rcases hx with h | h <;> subst h
    · exact ((genericMsg_ne_metric_msgs pr hpr).1).symm
    · exact ((genericMsg_ne_metric_msgs pr hpr).2).symm
  have htech : x ≠ noTechMsg := by
    rcases hx with h | h <;> subst h <;> decide
  have hvary : x ≠ varyMsg := by
    rcases hx with h | h <;> subst h <;> decide
  have hrep : x ≠ repeatMsg := by
    rcases hx with h | h <;> subst h <;> decide
  have hdig : x ≠ noDigitMsg := by
    rcases hx with h | h <;> subst h <;> decide
  have hpas : x ≠ passiveMsg := by
    rcases hx with h | h <;> subst h <;> decide
  rw [validate_section_warnings]
  simp only [List.mem_append]
  constructor
  · rintro ((((((((h | h) | h) | h) | h) | h) | h) | h) | h)
    · exact absurd h (notin_lengthCheck r x hshort hlong)
    · exact absurd h (notin_openingCheck r x hopen)
    · exact h
    · exact absurd h (notin_genericCheck r x hgen)
    · exact absurd h (notin_techCheck v n r x htech)
    · exact absurd h (notin_varietyCheck r x hvary)
    · exact absurd h (notin_repeatCheck r x hrep)
    · exact absurd h (notin_digitCheck n r x hdig)
    · exact absurd h (notin_passiveCheck r x hpas)
  · intro h
    tauto

/-- Stated from the claim's words, for comparison with the code: the
number of *distinct* metric texts of the dataset occurring verbatim in
the response. -/
def distinctMetricsFound (v : VData) (response : String) : Nat :=
  ((v.metrics_texts.eraseDups).filter (fun m => pyContains response m)).length

/-- C3 (amended): for a metric-relevant section of a dataset with at
least one metric, the warnings are driven by the number of *entries* of
the dataset's metric list whose text occurs in the response (an entry
with a duplicated text counts once per entry, not once per distinct
text): zero entries → only the strong warning (penalty 10); exactly one →
only the weaker warning (penalty 5); two or more → neither. -/
theorem c3_metric_warning_occurrence_bands (v : VData) (n r : String)
    (h1 : metric_sections.contains n = true)
    (h2 : v.metrics_texts ≠ []) :
    (metricsFound v r = 0 →
      noMetricsMsg ∈ (validate_section v n r).2.1 ∧
      fewMetricsMsg ∉ (validate_section v n r).2.1) ∧
    (metricsFound v r = 1 →
      fewMetricsMsg ∈ (validate_section v n r).2.1 ∧
      noMetricsMsg ∉ (validate_section v n r).2.1) ∧
    (2 ≤ metricsFound v r →
      noMetricsMsg ∉ (validate_section v n r).2.1 ∧
      fewMetricsMsg ∉ (validate_section v n r).2.1) := by
  have he : v.metrics_texts.isEmpty = false := by
    cases hm : v.metrics_texts
    · exact absurd hm h2
    · rfl
  refine ⟨fun hk => ?_, fun hk => ?_, fun hk => ?_⟩
  · have hmc : (metricsCheck v n r).1 = [noMetricsMsg] := by
      unfold metricsCheck
      rw [h1, he]
      simp [hk]
    constructor
    · rw [metric_msg_mem_iff v n r _ (Or.inl rfl), hmc]
      simp
    · rw [metric_msg_mem_iff v n r _ (Or.inr rfl), hmc]
      simp
      decide
  · have hmc : (metricsCheck v n r).1 = [fewMetricsMsg] := by
      unfold metricsCheck
      rw [h1, he]
      simp [hk]
    constructor
    · rw [metric_msg_mem_iff v n r _ (Or.inr rfl), hmc]
      simp
    · rw [metric_msg_mem_iff v n r _ (Or.inl rfl), hmc]
      simp
      decide
  · have h0 : ¬(metricsFound v r = 0) := by omega
    have hlt : ¬(metricsFound v r < 2) := by omega
    have hmc : (metricsCheck v n r).1 = [] := by
      unfold metricsCheck
      rw [h1, he]
      simp [h0, hlt]
    constructor
    · rw [metric_msg_mem_iff v n r _ (Or.inl rfl), hmc]
      simp
    · rw [metric_msg_mem_iff v n r _ (Or.inr rfl), hmc]
      simp

/-- The dataset used against C3: two metric entries with the same text. -/
def cV2 : VData := ⟨["10%", "10%"], [], "UNKNOWN", ""⟩

/-- A dataset with two distinct metric texts, one of which occurs in the
response below. -/
def cV3 : VData := ⟨["10%", "7ms"], [], "UNKNOWN", ""⟩

/-- The response used against C3: contains `10%` once. -/
def cRespMet : String := "We cut costs 10% this year"

/-- Counterexample for C3 as stated: with metric entries `["10%", "10%"]`
(one distinct text) and a response containing `10%`, exactly one distinct
metric text occurs, yet neither metric warning fires: the code counts
list entries (here 2), not distinct texts. -/
theorem c3_counterexample_duplicate_text :
    distinctMetricsFound cV2 cRespMet = 1 ∧
    metricsFound cV2 cRespMet = 2 ∧
    fewMetricsMsg ∉ (validate_section cV2 "Impact" cRespMet).2.1 ∧
    noMetricsMsg ∉ (validate_section cV2 "Impact" cRespMet).2.1 := by
  decide

/-- Witness for C3 (amended): the three occurrence bands exercised at
concrete inputs — 0 entries (strong only), 1 entry (weak only, via the
two-distinct-texts dataset), 2 entries (neither, via the
duplicated-text dataset). -/
theorem c3_metric_warning_occurrence_bands_witness :
    (noMetricsMsg ∈ (validate_section cV2 "Impact" "We cut costs a lot").2.1 ∧
      fewMetricsMsg ∉ (validate_section cV2 "Impact" "We cut costs a lot").2.1) ∧
    (fewMetricsMsg ∈ (validate_section cV3 "Impact" cRespMet).2.1 ∧
      noMetricsMsg ∉ (validate_section cV3 "Impact" cRespMet).2.1) ∧
    (noMetricsMsg ∉ (validate_section cV2 "Impact" cRespMet).2.1 ∧
      fewMetricsMsg ∉ (validate_section cV2 "Impact" cRespMet).2.1) :=
  ⟨(c3_metric_warning_occurrence_bands cV2 "Impact" "We cut costs a lot"
      (by decide) (by decide)).1 (by decide),
   (c3_metric_warning_occurrence_bands cV3 "Impact" cRespMet
      (by decide) (by decide)).2.1 (by decide),
   (c3_metric_warning_occurrence_bands cV2 "Impact" cRespMet
      (by decide) (by decide)).2.2 (by decide)⟩

end PerfReview
